import Mathlib

/-!
Shallow embedding of `src/scraper.py` (TIPO-scraper).

The repository's core is a two-phase mirror-and-verify pipeline:
phase 1 counts remote subdirectories per FTPS link
(`get_remote_directory_count`), phase 2 mirrors each link with a known
count (`mirror_and_verify_link`), and the `__main__` block coordinates
dispatch, aggregation and the final summary.

External effects (the `lftp` subprocess, `os.makedirs`, `os.walk`) are
modelled by explicit environment values describing the observable result
of each effect; the Python functions become total Lean functions of the
environment.  A function that can let a Python exception escape is
modelled as returning `Except String α`, with `Except.error` standing
for an uncaught exception.  Python string operations (`str.split`,
`str.strip`, `str.endswith`) are re-implemented character-by-character
so that concrete evaluation is kernel-reducible.
-/

/-- Whitespace characters removed by Python `str.strip()` (the ASCII ones;
the listing and stderr text handled by the scraper is ASCII). -/
def isPyWhitespace (c : Char) : Bool :=
  c = ' ' || c = '\t' || c = '\n' || c = '\r' || c = '\x0b' || c = '\x0c'

/-- Python `str.split(sep)` for a one-character separator, on a character
list: always returns at least one (possibly empty) piece. -/
def pySplitList (sep : Char) : List Char → List (List Char)
  | [] => [[]]
  | c :: cs =>
      let rest := pySplitList sep cs
      if c = sep then [] :: rest
      else
        match rest with
        | [] => [[c]]
        | piece :: pieces => (c :: piece) :: pieces

/-- Python `s.split(sep)` for a one-character separator. -/
def pySplit (sep : Char) (s : String) : List String :=
  (pySplitList sep s.data).map String.mk

/-- Python `s.strip()`. -/
def pyStrip (s : String) : String :=
  String.mk (((s.data.dropWhile isPyWhitespace).reverse.dropWhile isPyWhitespace).reverse)

/-- Python `s.endswith(c)` for a one-character suffix. -/
def pyEndsWith (suffix : Char) (s : String) : Bool :=
  match s.data.getLast? with
  | some c => c = suffix
  | none => false

/-- Splits a URL's characters at the first `://`, as `urllib.parse.urlparse`
does when a scheme is present: returns (scheme chars, remainder chars). -/
def splitSchemeAux : List Char → Option (List Char × List Char)
  | ':' :: '/' :: '/' :: rest => some ([], rest)
  | c :: rest =>
      match splitSchemeAux rest with
      | some (a, b) => some (c :: a, b)
      | none => none
  | [] => none

/-- `urlparse(url).hostname` for the scraper's `ftps://host/path` links
(netloc up to the first slash after the scheme). -/
def urlHost (url : String) : String :=
  match splitSchemeAux url.data with
  | some (_, rest) => String.mk (rest.takeWhile (fun c => c ≠ '/'))
  | none => ""

/-- `urlparse(url).path` for the scraper's `ftps://host/path` links
(everything from the first slash after the netloc). -/
def urlPath (url : String) : String :=
  match splitSchemeAux url.data with
  | some (_, rest) => String.mk (rest.dropWhile (fun c => c ≠ '/'))
  | none => url

/-- Observable result of the single `subprocess.run` call made by
`get_remote_directory_count` (scraper.py lines 62-68). -/
inductive CountEnv where
  | ok (stdout : String)
  | calledProcessError (stderr : String)
  | timeoutExpired
  | otherException (msg : String)
deriving DecidableEq

/-- scraper.py lines 53-84: run `lftp ... cls -1 path`, strip the stdout,
count the non-empty lines ending in `/`; every handled failure
(`CalledProcessError`, `TimeoutExpired`, any other `Exception`) returns
the unknown sentinel `-1`.  The `host` and `remote_path_on_host`
arguments only feed the command string and log messages. -/
def get_remote_directory_count (host remote_path_on_host : String)
    (env : CountEnv) : Int :=
  match env with
  | CountEnv.ok stdout =>
      let raw_cls_output := pyStrip stdout
      let remote_directories :=
        (pySplit '\n' raw_cls_output).filter
          (fun line => line != "" && pyEndsWith '/' line)
      (remote_directories.length : Int)
  | CountEnv.calledProcessError _ => -1
  | CountEnv.timeoutExpired => -1
  | CountEnv.otherException _ => -1

/-- scraper.py lines 93-102: derivation of the local target directory
name from the parsed remote path. -/
def local_target_dir_name_of (remote_path : String) : String :=
  let name := (pySplit '/' remote_path).getLastD ""
  if name = "" then
    if remote_path = "/" then "ftps_root"
    else
      let segments := (pySplit '/' remote_path).filter (fun s => s != "")
      match segments.getLast? with
      | some s => s
      | none => "unknown_target_dir"
  else name

/-- The 5-tuple returned by `mirror_and_verify_link`
(`(ftps_url, mirror_operation_status, lftp_mirror_output,
expected_remote_dir_count, local_dir_count)`).  The status is the status
string the source assigns. -/
structure JobOutcome where
  url : String
  status : String
  output : String
  expected : Int
  localCount : Nat
deriving DecidableEq

/-- Observable result of the external effects inside
`mirror_and_verify_link`: `os.makedirs` (line 105, outside the try
block) and the `subprocess.run` mirror call plus the `os.walk` count
(lines 117-133, inside the try block).

`makedirsError` models `os.makedirs` raising an `OSError`;
`runOk stdout localDirs` models a zero-exit tool run after which
`os.walk` reports `localDirs` immediate subdirectories;
`otherError` models any other exception raised inside the try block
(it fires during the run or walk, before the local count is recorded,
so `local_dir_count` still holds its line-115 initial value `0`). -/
inductive MirrorEnv where
  | makedirsError (msg : String)
  | runOk (stdout : String) (localDirs : Nat)
  | calledProcessError (stderr : String)
  | timeoutExpired (stderr : Option String)
  | otherError (msg : String)
deriving DecidableEq

/-- scraper.py lines 87-160.  The target-name derivation and
`os.makedirs` happen before the `try` (lines 93-105), so a `makedirs`
exception escapes the function (`Except.error`); everything raised by
the mirror run or the local count is caught and converted into a
returned tuple.  On the zero-exit path the count comparison against
`expected_remote_dir_count` only chooses a log message (lines 136-142)
and never changes the returned status. -/
def mirror_and_verify_link (ftps_url download_root : String)
    (expected_remote_dir_count : Int) (env : MirrorEnv) :
    Except String JobOutcome :=
  let remote_path := urlPath ftps_url
  let local_target_dir_name := local_target_dir_name_of remote_path
  let _local_mirror_destination_path :=
    download_root ++ "/" ++ local_target_dir_name
  match env with
  | MirrorEnv.makedirsError msg => Except.error msg
  | MirrorEnv.runOk stdout localDirs =>
      Except.ok
        { url := ftps_url, status := "Success", output := pyStrip stdout,
          expected := expected_remote_dir_count, localCount := localDirs }
  | MirrorEnv.calledProcessError stderr =>
      Except.ok
        { url := ftps_url, status := "Failed", output := pyStrip stderr,
          expected := expected_remote_dir_count, localCount := 0 }
  | MirrorEnv.timeoutExpired stderr =>
      Except.ok
        { url := ftps_url, status := "Timeout",
          output :=
            match stderr with
            | some s =>
                if s = "" then "No stderr captured before timeout."
                else pyStrip s
            | none => "No stderr captured before timeout.",
          expected := expected_remote_dir_count, localCount := 0 }
  | MirrorEnv.otherError msg =>
      Except.ok
        { url := ftps_url, status := "Error", output := msg,
          expected := expected_remote_dir_count, localCount := 0 }

/-- scraper.py lines 218-224: phase 2 dispatches a mirror task only for
links whose pre-fetched remote count is not the `-1` sentinel; sentinel
links are skipped with `continue` and produce nothing. -/
def dispatchedLinks (links : List String) (remote_counts : String → Int) :
    List String :=
  links.filter (fun l => remote_counts l ≠ -1)

/-- The list of phase-2 task results (`future.result()` values, or the
escaped exception), one per dispatched link, each mirror worker reading
its link's pre-fetched count. -/
def phase2Results (links : List String) (download_root : String)
    (remote_counts : String → Int) (env : String → MirrorEnv) :
    List (Except String JobOutcome) :=
  (dispatchedLinks links remote_counts).map
    (fun l => mirror_and_verify_link l download_root (remote_counts l) (env l))

/-- The counters logged at scraper.py lines 246-253.  The source keeps
no skipped counter; `timeout` is printed only when positive but is
always tracked. -/
structure RunSummary where
  total : Nat
  successful : Nat
  failed : Nat
  timeout : Nat
deriving DecidableEq

/-- scraper.py lines 229-244: folding one phase-2 result into the
`(successful_mirrors, failed_mirrors, timeout_mirrors)` counters:
`Success` increments successful; `Timeout` increments both timeout and
failed; any other status, and a task that raised, increment failed. -/
def countersStep (acc : Nat × Nat × Nat) (r : Except String JobOutcome) :
    Nat × Nat × Nat :=
  match r with
  | Except.ok out =>
      if out.status = "Success" then (acc.1 + 1, acc.2.1, acc.2.2)
      else if out.status = "Timeout" then (acc.1, acc.2.1 + 1, acc.2.2 + 1)
      else (acc.1, acc.2.1 + 1, acc.2.2)
  | Except.error _ => (acc.1, acc.2.1 + 1, acc.2.2)

/-- The `__main__` block after link discovery (scraper.py lines
179-253).  An empty link list hits `exit()` at line 181 before phase 1,
producing no summary (`none`).  Otherwise phase 1 records one remote
count per link, phase 2 mirrors the links with known counts, and the
summary reports the three counters plus the total link count. -/
def runMain (links : List String) (download_root : String)
    (countEnv : String → CountEnv) (mirrorEnv : String → MirrorEnv) :
    Option RunSummary :=
  if links = [] then none
  else
    let remote_counts := fun l =>
      get_remote_directory_count (urlHost l) (urlPath l) (countEnv l)
    let results := phase2Results links download_root remote_counts mirrorEnv
    let c := results.foldl countersStep (0, 0, 0)
    some { total := links.length, successful := c.1,
           failed := c.2.1, timeout := c.2.2 }

/-- Pipeline phase of the coordinator: inside the phase-1
`ThreadPoolExecutor` block (scraper.py lines 188-203) or past it, inside
the phase-2 block (lines 216-227). -/
inductive CoordPhase where
  | counting
  | mirroring
deriving DecidableEq

/-- Instrumented coordinator state for the two-phase pipeline:
`counted` is the `remote_counts_data` dict in insertion order (one entry
per completed phase-1 task), `started` records each mirror task the
coordinator has submitted together with the `expected_count` argument it
was given. -/
structure CoordState where
  phase : CoordPhase
  counted : List (String × Int)
  started : List (String × Int)
deriving DecidableEq

/-- Coordinator start state: phase 1 underway, nothing completed. -/
def initCoordState : CoordState :=
  ⟨CoordPhase.counting, [], []⟩

/-- One observable coordinator event, parameterised by the link list and
by the value each phase-1 task yields (`countResult link`; a task whose
future raised is recorded as `-1` at scraper.py line 202, which
`countResult` also covers).

`countDone` is one phase-1 task completing and its count being recorded
(lines 195-202).  `joinBarrier` is the exit of the phase-1
`with`-block: `ThreadPoolExecutor.__exit__` calls `shutdown(wait=True)`,
and the `as_completed` loop has already consumed every future, so this
transition is only enabled once every link has a recorded count.
`mirrorStart` is `executor.submit(mirror_and_verify_link, ...)` at line
226, enabled only in the mirroring phase and only for a link whose
recorded count is not the `-1` sentinel (lines 219-224). -/
inductive CoordStep (links : List String) (countResult : String → Int) :
    CoordState → CoordState → Prop where
  | countDone (s : CoordState) (link : String) :
      s.phase = CoordPhase.counting → link ∈ links →
      link ∉ s.counted.map Prod.fst →
      CoordStep links countResult s
        ⟨s.phase, s.counted ++ [(link, countResult link)], s.started⟩
  | joinBarrier (s : CoordState) :
      s.phase = CoordPhase.counting →
      (∀ l ∈ links, l ∈ s.counted.map Prod.fst) →
      CoordStep links countResult s
        ⟨CoordPhase.mirroring, s.counted, s.started⟩
  | mirrorStart (s : CoordState) (link : String) (c : Int) :
      s.phase = CoordPhase.mirroring →
      (link, c) ∈ s.counted → c ≠ -1 →
      link ∉ s.started.map Prod.fst →
      CoordStep links countResult s
        ⟨s.phase, s.counted, s.started ++ [(link, c)]⟩

/-- States the coordinator can reach from the start state. -/
inductive CoordReach (links : List String) (countResult : String → Int) :
    CoordState → Prop where
  | init : CoordReach links countResult initCoordState
  | step (s t : CoordState) : CoordReach links countResult s →
      CoordStep links countResult s t → CoordReach links countResult t

/-- Every `ok` result of `mirror_and_verify_link` carries the URL it was
called with in its first component. -/
theorem mirror_and_verify_link_url (url droot : String) (exp : Int)
    (env : MirrorEnv) (out : JobOutcome)
    (h : mirror_and_verify_link url droot exp env = Except.ok out) :
    out.url = url := by
  cases env with
  | makedirsError msg => simp [mirror_and_verify_link] at h
  | runOk s n =>
      injection h with h2
      subst h2
      rfl
  | calledProcessError s =>
      injection h with h2
      subst h2
      rfl
  | timeoutExpired s =>
      injection h with h2
      subst h2
      rfl
  | otherError m =>
      injection h with h2
      subst h2
      rfl

/-- Reachability invariant of the coordinator: mirroring phase implies
every link has a recorded count, and every started mirror task was
started in the mirroring phase with a count taken from the recorded
map. -/
theorem coordInvariant {links : List String} {countResult : String → Int}
    {s : CoordState} (h : CoordReach links countResult s) :
    (s.phase = CoordPhase.mirroring →
      ∀ l ∈ links, l ∈ s.counted.map Prod.fst) ∧
    (∀ p ∈ s.started, s.phase = CoordPhase.mirroring ∧ p ∈ s.counted) := by
  induction h with
  | init =>
      exact ⟨fun hph => CoordPhase.noConfusion hph,
        fun p hp => absurd hp (List.not_mem_nil p)⟩
  | step s t _ hstep ih =>
      cases hstep with
      | countDone link hph hlink hnot =>
          refine ⟨fun hm => ?_, fun p hp => ?_⟩
          · exact CoordPhase.noConfusion (hph.symm.trans hm)
          · obtain ⟨hm, _⟩ := ih.2 p hp
            exact CoordPhase.noConfusion (hph.symm.trans hm)
      | joinBarrier hph hall =>
          refine ⟨fun _ => hall, fun p hp => ?_⟩
          obtain ⟨hm, _⟩ := ih.2 p hp
          exact CoordPhase.noConfusion (hph.symm.trans hm)
      | mirrorStart link c hph hcount hc hnot =>
          refine ⟨fun _ => ih.1 hph, fun p hp => ?_⟩
          rcases List.mem_append.mp hp with h1 | h2
          · obtain ⟨_, hcmem⟩ := ih.2 p h1
            exact ⟨hph, hcmem⟩
          · have hpe : p = (link, c) := by simpa using h2
            subst hpe
            exact ⟨hph, hcount⟩

/-- C1 counterexample: for the single locator `ftps://h/b` whose
recorded RemoteCount is the sentinel `-1`, the run produces an empty
list of phase-2 results — no JobOutcome (in particular no Skipped one)
is recorded for the locator, contradicting the claim that a Skipped
JobOutcome is recorded and summarised. -/
theorem c1_counterexample :
    phase2Results ["ftps://h/b"] "114" (fun _ => -1)
      (fun _ => MirrorEnv.otherError "e") = [] := rfl

/-- C1 amended: a locator whose recorded RemoteCount is `-1` is never
dispatched to the Mirror Executor and yields no JobOutcome at all (no
Skipped outcome exists in the source, and the summary has no skipped
counter: `RunSummary` carries only successful, failed, timed-out and
total). -/
theorem c1_skipped_no_outcome (links : List String) (droot : String)
    (counts : String → Int) (env : String → MirrorEnv) (link : String)
    (h : counts link = -1) :
    link ∉ dispatchedLinks links counts ∧
      ∀ r ∈ phase2Results links droot counts env,
        ∀ out, r = Except.ok out → out.url ≠ link := by
  constructor
  · intro hmem
    simp only [dispatchedLinks, List.mem_filter, decide_eq_true_eq] at hmem
    exact hmem.2 h
  · intro r hr out hout
    simp only [phase2Results, List.mem_map] at hr
    obtain ⟨l, hl, rfl⟩ := hr
    have hurl := mirror_and_verify_link_url l droot (counts l) (env l) out hout
    simp only [dispatchedLinks, List.mem_filter, decide_eq_true_eq] at hl
    intro heq
    exact hl.2 ((hurl.symm.trans heq) ▸ h)

/-- C1 witness: instantiation of the amended claim at the concrete
skipped locator. -/
theorem c1_witness :
    ("ftps://h/b" ∉ dispatchedLinks ["ftps://h/b"] (fun _ => -1)) ∧
      ∀ r ∈ phase2Results ["ftps://h/b"] "114" (fun _ => -1)
          (fun _ => MirrorEnv.otherError "e"),
        ∀ out, r = Except.ok out → out.url ≠ "ftps://h/b" :=
  c1_skipped_no_outcome ["ftps://h/b"] "114" (fun _ => -1)
    (fun _ => MirrorEnv.otherError "e") "ftps://h/b" rfl

/-- C2 counterexample: with an empty locator sequence the run hits
`exit()` before phase 1 and emits no summary at all — in particular not
the all-zero summary the claim promises. -/
theorem c2_counterexample :
    runMain [] "114" (fun _ => CountEnv.timeoutExpired)
        (fun _ => MirrorEnv.otherError "e") = none ∧
      runMain [] "114" (fun _ => CountEnv.timeoutExpired)
        (fun _ => MirrorEnv.otherError "e") ≠
      some { total := 0, successful := 0, failed := 0, timeout := 0 } :=
  ⟨rfl, by decide⟩

/-- C2 amended: with an empty locator sequence the run aborts (logs a
warning and calls `exit()`) before the counting phase; no run summary is
produced. -/
theorem c2_empty_run_aborts (droot : String) (countEnv : String → CountEnv)
    (mirrorEnv : String → MirrorEnv) :
    runMain [] droot countEnv mirrorEnv = none := rfl

/-- C3 counterexample: an exception raised by the step-1 directory
creation (`os.makedirs`, which sits before the `try` block) escapes
`mirror_and_verify_link` instead of being converted into a JobOutcome,
contradicting the claim that no exception passes the boundary. -/
theorem c3_counterexample :
    mirror_and_verify_link "ftps://h/a" "114" 3
        (MirrorEnv.makedirsError "Permission denied") =
      Except.error "Permission denied" := rfl

/-- C3 amended: for every tool-invocation outcome (zero exit, non-zero
exit, exceeded wait, any other exception inside the `try` block)
`mirror_and_verify_link` returns a JobOutcome whose status is one of
Success, Failed, Timeout, Error; only a step-1 exception (directory
creation, before the `try`) escapes the boundary. -/
theorem c3_returns_outcome (url droot : String) (exp : Int)
    (env : MirrorEnv) (h : ∀ msg, env ≠ MirrorEnv.makedirsError msg) :
    ∃ out, mirror_and_verify_link url droot exp env = Except.ok out ∧
      (out.status = "Success" ∨ out.status = "Failed" ∨
        out.status = "Timeout" ∨ out.status = "Error") := by
  cases env with
  | makedirsError msg => exact absurd rfl (h msg)
  | runOk s n => exact ⟨_, rfl, Or.inl rfl⟩
  | calledProcessError s => exact ⟨_, rfl, Or.inr (Or.inl rfl)⟩
  | timeoutExpired s => exact ⟨_, rfl, Or.inr (Or.inr (Or.inl rfl))⟩
  | otherError m => exact ⟨_, rfl, Or.inr (Or.inr (Or.inr rfl))⟩

/-- C3 witness: instantiation of the amended claim at a concrete
zero-exit environment. -/
theorem c3_witness :
    ∃ out, mirror_and_verify_link "ftps://h/a" "114" 3
        (MirrorEnv.runOk "done" 3) = Except.ok out ∧
      (out.status = "Success" ∨ out.status = "Failed" ∨
        out.status = "Timeout" ∨ out.status = "Error") :=
  c3_returns_outcome "ftps://h/a" "114" 3 (MirrorEnv.runOk "done" 3)
    (fun _ h => MirrorEnv.noConfusion h)

/-- C4: local target name derivation is pure with the claimed values:
`/S220/data/2025/` gives `2025` (the final non-empty segment), `/` gives
the root placeholder `ftps_root`, and the empty path gives the distinct
placeholder `unknown_target_dir`. -/
theorem c4_local_target_name :
    local_target_dir_name_of "/S220/data/2025/" = "2025" ∧
      local_target_dir_name_of "/" = "ftps_root" ∧
      local_target_dir_name_of "" = "unknown_target_dir" :=
  ⟨by decide, by decide, by decide⟩

/-- C5: on a zero-exit mirror run the outcome status is Success for
every combination of observed local count and expected count (match,
mismatch, or unknown sentinel); the comparison only picks a log
message. -/
theorem c5_mismatch_not_escalated (url droot : String) (exp : Int)
    (stdout : String) (localDirs : Nat) :
    ∃ out, mirror_and_verify_link url droot exp
        (MirrorEnv.runOk stdout localDirs) = Except.ok out ∧
      out.status = "Success" ∧ out.expected = exp ∧
      out.localCount = localDirs :=
  ⟨_, rfl, rfl, rfl, rfl⟩

/-- C6: on a zero-exit listing the Remote Counter returns exactly the
number of non-empty lines of the (stripped) listing output that end in
`/` — for example 2 on a listing with two directory lines and one file
line — and returns the sentinel `-1` on a non-zero exit, an exceeded
wait bound, or any other exception, never propagating. -/
theorem c6_remote_count (host rp stdout e m : String) :
    get_remote_directory_count host rp (CountEnv.ok stdout) =
      (((pySplit '\n' (pyStrip stdout)).filter
        (fun line => line != "" && pyEndsWith '/' line)).length : Int) ∧
      get_remote_directory_count "h" "/S220/data"
        (CountEnv.ok "2024/\n2025/\nreadme.txt") = 2 ∧
      get_remote_directory_count host rp (CountEnv.calledProcessError e) = -1 ∧
      get_remote_directory_count host rp CountEnv.timeoutExpired = -1 ∧
      get_remote_directory_count host rp (CountEnv.otherException m) = -1 :=
  ⟨rfl, by decide, rfl, rfl, rfl⟩

/-- C7: an exceeded mirror wait yields a Timeout outcome, and folding
that outcome into the run counters increments both the failed and the
timed-out counter while leaving the successful counter unchanged. -/
theorem c7_timeout_counted_as_failure (url droot : String) (exp : Int)
    (stderr : Option String) (s f t : Nat) :
    ∃ out, mirror_and_verify_link url droot exp
        (MirrorEnv.timeoutExpired stderr) = Except.ok out ∧
      out.status = "Timeout" ∧
      countersStep (s, f, t)
        (mirror_and_verify_link url droot exp
          (MirrorEnv.timeoutExpired stderr)) = (s, f + 1, t + 1) :=
  ⟨_, rfl, rfl, rfl⟩

/-- C8: in every reachable coordinator state, if some mirror task has
been started then every link's Remote Counter task has completed (its
count is recorded), and the expected count handed to that mirror task is
exactly the count recorded for its link in phase 1. -/
theorem c8_phase_barrier (links : List String) (countResult : String → Int)
    (s : CoordState) (h : CoordReach links countResult s)
    (p : String × Int) (hp : p ∈ s.started) :
    (∀ l ∈ links, l ∈ s.counted.map Prod.fst) ∧ p ∈ s.counted := by
  obtain ⟨h1, h2⟩ := coordInvariant h
  obtain ⟨hm, hc⟩ := h2 p hp
  exact ⟨h1 hm, hc⟩

/-- C8 witness: a concrete three-step run (count, join, mirror start)
over the single link `ftps://h/a` with recorded count 3. -/
theorem c8_witness :
    (∀ l ∈ ["ftps://h/a"],
        l ∈ ([("ftps://h/a", (3 : Int))].map Prod.fst)) ∧
      ("ftps://h/a", (3 : Int)) ∈ [("ftps://h/a", (3 : Int))] := by
  have r1 : CoordReach ["ftps://h/a"] (fun _ => 3)
      ⟨CoordPhase.counting, [("ftps://h/a", 3)], []⟩ :=
    CoordReach.step _ _ CoordReach.init
      (CoordStep.countDone initCoordState "ftps://h/a" rfl (by simp)
        (by simp [initCoordState]))
  have r2 : CoordReach ["ftps://h/a"] (fun _ => 3)
      ⟨CoordPhase.mirroring, [("ftps://h/a", 3)], []⟩ :=
    CoordReach.step _ _ r1 (CoordStep.joinBarrier _ rfl (by simp))
  have r3 : CoordReach ["ftps://h/a"] (fun _ => 3)
      ⟨CoordPhase.mirroring, [("ftps://h/a", 3)], [("ftps://h/a", 3)]⟩ :=
    CoordReach.step _ _ r2
      (CoordStep.mirrorStart _ "ftps://h/a" 3 rfl (by simp) (by decide) (by simp))
  exact c8_phase_barrier ["ftps://h/a"] (fun _ => 3) _ r3
    ("ftps://h/a", 3) (by simp)

/-- C9 counterexample: a non-zero tool exit with empty captured stderr
yields a Failed outcome whose error text is empty, contradicting the
claim that the captured error text is always non-empty. -/
theorem c9_counterexample :
    mirror_and_verify_link "ftps://h/a" "114" 5
        (MirrorEnv.calledProcessError "") =
      Except.ok { url := "ftps://h/a", status := "Failed", output := "",
                  expected := 5, localCount := 0 } := rfl

/-- C9 amended: on a non-zero tool exit the outcome is Failed with the
expected count passed through unchanged, local count 0 (never computed),
and error text equal to the stripped captured stderr — non-empty exactly
when the tool emitted non-whitespace stderr. -/
theorem c9_failed_outcome (url droot : String) (exp : Int)
    (stderr : String) :
    mirror_and_verify_link url droot exp
        (MirrorEnv.calledProcessError stderr) =
      Except.ok { url := url, status := "Failed", output := pyStrip stderr,
                  expected := exp, localCount := 0 } := rfl

/-- C10: every JobOutcome returned by the Mirror Executor carries the
expected count it was called with, and every non-Success outcome has
local count 0, since the local subdirectory count is only computed on
the zero-exit path. -/
theorem c10_frame (url droot : String) (exp : Int) (env : MirrorEnv)
    (out : JobOutcome)
    (h : mirror_and_verify_link url droot exp env = Except.ok out) :
    out.expected = exp ∧ (out.status ≠ "Success" → out.localCount = 0) := by
  cases env with
  | makedirsError msg => simp [mirror_and_verify_link] at h
  | runOk s n =>
      injection h with h2
      subst h2
      exact ⟨rfl, fun hs => absurd rfl hs⟩
  | calledProcessError s =>
      injection h with h2
      subst h2
      exact ⟨rfl, fun _ => rfl⟩
  | timeoutExpired s =>
      injection h with h2
      subst h2
      exact ⟨rfl, fun _ => rfl⟩
  | otherError m =>
      injection h with h2
      subst h2
      exact ⟨rfl, fun _ => rfl⟩

/-- C10 witness: instantiation at a concrete failed mirror run. -/
theorem c10_witness :
    ({ url := "ftps://h/a", status := "Failed", output := "boom",
       expected := 5, localCount := 0 } : JobOutcome).expected = 5 ∧
      (({ url := "ftps://h/a", status := "Failed", output := "boom",
          expected := 5, localCount := 0 } : JobOutcome).status ≠ "Success" →
        ({ url := "ftps://h/a", status := "Failed", output := "boom",
           expected := 5, localCount := 0 } : JobOutcome).localCount = 0) :=
  c10_frame "ftps://h/a" "114" 5 (MirrorEnv.calledProcessError "boom") _ rfl
